import Mathlib

/-!
Verification of the bun-express-docker-leak-repro repository.

The development shallowly embeds the two pieces the specification talks
about: the delta/severity classification of the measurement driver
(src/test-reproduction-local.sh) and the /health and /memory endpoints of
the probe server (src/index.ts).  Shell integer arithmetic is embedded as
Int, object counts as Nat, and the JavaScript number semantics needed by
the heap-utilization computation as a small inductive with NaN and
+Infinity.
-/

namespace BunRepro

/-- Leak severity levels of the driver script (the LEAK_SEVERITY shell
variable takes the string values none, moderate, critical). -/
inductive Severity where
  | none
  | moderate
  | critical
deriving DecidableEq

/-- Numeric rank of a severity: none < moderate < critical. -/
def Severity.rank : Severity → Nat
  | Severity.none => 0
  | Severity.moderate => 1
  | Severity.critical => 2

/-- Maximum of two severities in the order none < moderate < critical. -/
def Severity.max (a b : Severity) : Severity :=
  if a.rank ≤ b.rank then b else a

/-- Per-count deltas of the HTTP object family tracked by the script:
HEADERS_DIFF, RESPONSES_DIFF, SOCKETS_DIFF.  Shell arithmetic on the
counts can be negative, so the deltas are integers. -/
structure HttpDiffs where
  headers : Int
  responses : Int
  sockets : Int
deriving DecidableEq

/-- Per-count deltas of the general object family tracked by the script:
PROMISES_DIFF, FUNCTIONS_DIFF, ARRAYS_DIFF. -/
structure GeneralDiffs where
  promises : Int
  functions : Int
  arrays : Int
deriving DecidableEq

/-- The critical condition of the HTTP family in the post-load severity
check of test-reproduction-local.sh: HEADERS_DIFF -gt 500 or
RESPONSES_DIFF -gt 500 or SOCKETS_DIFF -gt 100. -/
def httpCriticalCond (d : HttpDiffs) : Bool :=
  decide (500 < d.headers) || decide (500 < d.responses) || decide (100 < d.sockets)

/-- The moderate condition of the HTTP family: HEADERS_DIFF -gt 100 or
RESPONSES_DIFF -gt 100 or SOCKETS_DIFF -gt 50. -/
def httpModerateCond (d : HttpDiffs) : Bool :=
  decide (100 < d.headers) || decide (100 < d.responses) || decide (50 < d.sockets)

/-- The critical condition of the general family: PROMISES_DIFF -gt 5000
or FUNCTIONS_DIFF -gt 10000 or ARRAYS_DIFF -gt 20000. -/
def genCriticalCond (g : GeneralDiffs) : Bool :=
  decide (5000 < g.promises) || decide (10000 < g.functions) || decide (20000 < g.arrays)

/-- The moderate condition of the general family: PROMISES_DIFF -gt 1000
or FUNCTIONS_DIFF -gt 5000 or ARRAYS_DIFF -gt 10000. -/
def genModerateCond (g : GeneralDiffs) : Bool :=
  decide (1000 < g.promises) || decide (5000 < g.functions) || decide (10000 < g.arrays)

/-- LEAK_SEVERITY as computed sequentially by the script: it starts at
none; the HTTP-family if/elif may raise it to critical or moderate (the
elif body keeps an already-critical value); then, only when the general
counts were available, the general-family if/elif may raise it again the
same way. -/
def leakSeverity (d : HttpDiffs) (g : Option GeneralDiffs) : Severity :=
  let s0 : Severity := Severity.none
  let s1 : Severity :=
    if httpCriticalCond d then Severity.critical
    else if httpModerateCond d then
      (if s0 = Severity.critical then s0 else Severity.moderate)
    else s0
  match g with
  | Option.none => s1
  | Option.some gd =>
    if genCriticalCond gd then Severity.critical
    else if genModerateCond gd then
      (if s1 = Severity.critical then s1 else Severity.moderate)
    else s1

/-- The HTTP-family classification as a standalone three-valued table,
with the thresholds the script actually uses (500/500/100 for critical,
100/100/50 for moderate on Headers/NodeHTTPResponse/NodeHTTPServerSocket
respectively). -/
def httpFamilySeverity (d : HttpDiffs) : Severity :=
  if httpCriticalCond d then Severity.critical
  else if httpModerateCond d then Severity.moderate
  else Severity.none

/-- The general-family classification as a standalone three-valued table
(5000/10000/20000 critical, 1000/5000/10000 moderate on
Promise/Function/Array respectively). -/
def generalFamilySeverity (g : GeneralDiffs) : Severity :=
  if genCriticalCond g then Severity.critical
  else if genModerateCond g then Severity.moderate
  else Severity.none

/-- The HTTP-family classification as the specification words it: a
uniform threshold of 500 (critical) and 100 (moderate) on each of the
three tracked counts.  Written from the words of the spec, for comparison
with the script. -/
def specHttpFamilySeverity (d : HttpDiffs) : Severity :=
  if 500 < d.headers ∨ 500 < d.responses ∨ 500 < d.sockets then Severity.critical
  else if 100 < d.headers ∨ 100 < d.responses ∨ 100 < d.sockets then Severity.moderate
  else Severity.none

/-- The overall severity as the specification words it: the maximum of
the two family classifications, with the uniform HTTP thresholds the spec
states. -/
def specSeverity (d : HttpDiffs) (g : GeneralDiffs) : Severity :=
  Severity.max (specHttpFamilySeverity d) (generalFamilySeverity g)

/-- Helper: the sequential LEAK_SEVERITY computation agrees with the
maximum of the two family tables. -/
theorem leakSeverity_eq_max (d : HttpDiffs) (g : GeneralDiffs) :
    leakSeverity d (Option.some g)
      = Severity.max (httpFamilySeverity d) (generalFamilySeverity g) := by
  unfold leakSeverity httpFamilySeverity generalFamilySeverity Severity.max
  cases h1 : httpCriticalCond d <;> cases h2 : httpModerateCond d <;>
    cases h3 : genCriticalCond g <;> cases h4 : genModerateCond g <;>
      simp [h1, h2, h3, h4, Severity.rank]

/-- Helper: with the general family absent the script reports exactly the
HTTP-family classification. -/
theorem leakSeverity_none_eq_http (d : HttpDiffs) :
    leakSeverity d Option.none = httpFamilySeverity d := by
  unfold leakSeverity httpFamilySeverity
  cases h1 : httpCriticalCond d <;> cases h2 : httpModerateCond d <;> simp [h1, h2]

/-- C1 (amended): the post-load severity is the maximum of the two family
classifications, where the HTTP family classifies with thresholds
500/500/100 (critical) and 100/100/50 (moderate) on
Headers/NodeHTTPResponse/NodeHTTPServerSocket, and the general family
with 5000/10000/20000 (critical) and 1000/5000/10000 (moderate) on
Promise/Function/Array. -/
theorem leak_severity_eq_family_max (d : HttpDiffs) (g : GeneralDiffs) :
    leakSeverity d (Option.some g)
      = Severity.max
          (if 500 < d.headers ∨ 500 < d.responses ∨ 100 < d.sockets then Severity.critical
           else if 100 < d.headers ∨ 100 < d.responses ∨ 50 < d.sockets then Severity.moderate
           else Severity.none)
          (if 5000 < g.promises ∨ 10000 < g.functions ∨ 20000 < g.arrays then Severity.critical
           else if 1000 < g.promises ∨ 5000 < g.functions ∨ 10000 < g.arrays then Severity.moderate
           else Severity.none) := by
  have h := leakSeverity_eq_max d g
  rw [h]
  unfold httpFamilySeverity generalFamilySeverity httpCriticalCond httpModerateCond
    genCriticalCond genModerateCond
  simp only [Bool.or_eq_true, decide_eq_true_eq, or_assoc]

/-- C1 (counterexample): on the delta vector with NodeHTTPServerSocket
delta 101 and everything else 0 the script classifies critical, while the
uniform thresholds stated by the spec classify only moderate. -/
theorem leak_severity_socket_thresholds_cex :
    leakSeverity ⟨0, 0, 101⟩ (Option.some ⟨0, 0, 0⟩) = Severity.critical ∧
    specSeverity ⟨0, 0, 101⟩ ⟨0, 0, 0⟩ = Severity.moderate := by
  constructor <;> rfl

/-- The growth condition of the HTTP family in the delayed (post-sleep)
check: DELAYED_HEADERS_DIFF -gt 10 or DELAYED_RESPONSES_DIFF -gt 10 or
DELAYED_SOCKETS_DIFF -gt 5. -/
def httpGrowthCond (d : HttpDiffs) : Bool :=
  decide (10 < d.headers) || decide (10 < d.responses) || decide (5 < d.sockets)

/-- The growth condition of the general family in the delayed check:
DELAYED_PROMISES_DIFF -gt 100 or DELAYED_ARRAYS_DIFF -gt 500 or
DELAYED_FUNCTIONS_DIFF -gt 1000. -/
def genGrowthCond (g : GeneralDiffs) : Bool :=
  decide (100 < g.promises) || decide (500 < g.arrays) || decide (1000 < g.functions)

/-- CONTINUED_GROWTH as computed sequentially by the script: it starts
false, the HTTP-family check may set it, then, only when the general
counts were available, the general-family check may set it. -/
def continuedGrowth (d : HttpDiffs) (g : Option GeneralDiffs) : Bool :=
  let c0 := false
  let c1 := if httpGrowthCond d then true else c0
  match g with
  | Option.none => c1
  | Option.some gd => if genGrowthCond gd then true else c1

/-- The continued-growth flag as the specification words it: some HTTP
count delta exceeds 10, or some general count delta exceeds its threshold
(which the script picks in the 100 to 1000 range).  Written from the
words of the spec, for comparison with the script. -/
def specContinuedGrowth (d : HttpDiffs) (g : Option GeneralDiffs) : Bool :=
  decide (10 < d.headers) || decide (10 < d.responses) || decide (10 < d.sockets) ||
    (match g with
     | Option.some gd => genGrowthCond gd
     | Option.none => false)

/-- Helper: the sequential CONTINUED_GROWTH computation is the
disjunction of the two family growth conditions. -/
theorem continuedGrowth_eq_or (d : HttpDiffs) (g : Option GeneralDiffs) :
    continuedGrowth d g
      = (httpGrowthCond d ||
          (match g with
           | Option.some gd => genGrowthCond gd
           | Option.none => false)) := by
  cases g with
  | none =>
    unfold continuedGrowth
    cases h1 : httpGrowthCond d <;> simp [h1]
  | some gd =>
    unfold continuedGrowth
    cases h1 : httpGrowthCond d <;> cases h2 : genGrowthCond gd <;> simp [h1, h2]

/-- C2 (amended): the delayed growth check flags continued growth exactly
when an HTTP-family delta exceeds its threshold (10 for Headers, 10 for
NodeHTTPResponse, 5 for NodeHTTPServerSocket) or, when the general counts
were available, a general-family delta exceeds its threshold (100 for
Promise, 500 for Array, 1000 for Function). -/
theorem continued_growth_iff (d : HttpDiffs) (g : Option GeneralDiffs) :
    continuedGrowth d g = true ↔
      (10 < d.headers ∨ 10 < d.responses ∨ 5 < d.sockets ∨
        ∃ gd, g = Option.some gd ∧
          (100 < gd.promises ∨ 500 < gd.arrays ∨ 1000 < gd.functions)) := by
  rw [continuedGrowth_eq_or]
  cases g with
  | none =>
    simp [httpGrowthCond, or_assoc]
  | some gd =>
    simp [httpGrowthCond, genGrowthCond, or_assoc]

/-- C2 (counterexample): a delayed NodeHTTPServerSocket delta of 7 (all
other deltas 0) makes the script flag continued growth, while the
uniform exceeds-10 reading of the spec does not flag it. -/
theorem continued_growth_socket_threshold_cex :
    continuedGrowth ⟨0, 0, 7⟩ (Option.some ⟨0, 0, 0⟩) = true ∧
    specContinuedGrowth ⟨0, 0, 7⟩ (Option.some ⟨0, 0, 0⟩) = false := by
  constructor <;> rfl

/-- Object counts extracted by the driver from one probe of the /memory
endpoint: the four HTTP-family counts read from heap.analysis.httpObjects
and the general counts read from heap.statistics.objectTypeCounts (the
script tracks Promise, Function and Array for the severity checks). -/
structure Counts where
  headers : Nat
  responses : Nat
  sockets : Nat
  promises : Nat
  functions : Nat
  arrays : Nat
deriving DecidableEq

/-- HTTP-family deltas between a before and an after snapshot, as the
script computes them with shell integer arithmetic. -/
def httpDelta (b a : Counts) : HttpDiffs :=
  ⟨(a.headers : Int) - (b.headers : Int),
   (a.responses : Int) - (b.responses : Int),
   (a.sockets : Int) - (b.sockets : Int)⟩

/-- General-family deltas between a before and an after snapshot. -/
def genDelta (b a : Counts) : GeneralDiffs :=
  ⟨(a.promises : Int) - (b.promises : Int),
   (a.functions : Int) - (b.functions : Int),
   (a.arrays : Int) - (b.arrays : Int)⟩

/-- Pointwise order on HTTP-family deltas. -/
def HttpDiffs.le (d e : HttpDiffs) : Prop :=
  d.headers ≤ e.headers ∧ d.responses ≤ e.responses ∧ d.sockets ≤ e.sockets

/-- Pointwise order on general-family deltas. -/
def GeneralDiffs.le (g k : GeneralDiffs) : Prop :=
  g.promises ≤ k.promises ∧ g.functions ≤ k.functions ∧ g.arrays ≤ k.arrays

theorem httpCriticalCond_mono {d e : HttpDiffs} (h : HttpDiffs.le d e)
    (hc : httpCriticalCond d = true) : httpCriticalCond e = true := by
  simp only [httpCriticalCond, Bool.or_eq_true, decide_eq_true_eq] at hc ⊢
  obtain ⟨h1, h2, h3⟩ := h
  omega

theorem httpModerateCond_mono {d e : HttpDiffs} (h : HttpDiffs.le d e)
    (hc : httpModerateCond d = true) : httpModerateCond e = true := by
  simp only [httpModerateCond, Bool.or_eq_true, decide_eq_true_eq] at hc ⊢
  obtain ⟨h1, h2, h3⟩ := h
  omega

theorem genCriticalCond_mono {g k : GeneralDiffs} (h : GeneralDiffs.le g k)
    (hc : genCriticalCond g = true) : genCriticalCond k = true := by
  simp only [genCriticalCond, Bool.or_eq_true, decide_eq_true_eq] at hc ⊢
  obtain ⟨h1, h2, h3⟩ := h
  omega

theorem genModerateCond_mono {g k : GeneralDiffs} (h : GeneralDiffs.le g k)
    (hc : genModerateCond g = true) : genModerateCond k = true := by
  simp only [genModerateCond, Bool.or_eq_true, decide_eq_true_eq] at hc ⊢
  obtain ⟨h1, h2, h3⟩ := h
  omega

theorem httpFamilySeverity_rank_mono {d e : HttpDiffs} (h : HttpDiffs.le d e) :
    (httpFamilySeverity d).rank ≤ (httpFamilySeverity e).rank := by
  unfold httpFamilySeverity
  by_cases h1 : httpCriticalCond d = true
  · rw [if_pos h1, if_pos (httpCriticalCond_mono h h1)]
  · rw [if_neg h1]
    by_cases h2 : httpModerateCond d = true
    · rw [if_pos h2]
      by_cases h3 : httpCriticalCond e = true
      · rw [if_pos h3]
        decide
      · rw [if_neg h3, if_pos (httpModerateCond_mono h h2)]
    · rw [if_neg h2]
      exact Nat.zero_le _

theorem genFamilySeverity_rank_mono {g k : GeneralDiffs} (h : GeneralDiffs.le g k) :
    (generalFamilySeverity g).rank ≤ (generalFamilySeverity k).rank := by
  unfold generalFamilySeverity
  by_cases h1 : genCriticalCond g = true
  · rw [if_pos h1, if_pos (genCriticalCond_mono h h1)]
  · rw [if_neg h1]
    by_cases h2 : genModerateCond g = true
    · rw [if_pos h2]
      by_cases h3 : genCriticalCond k = true
      · rw [if_pos h3]
        decide
      · rw [if_neg h3, if_pos (genModerateCond_mono h h2)]
    · rw [if_neg h2]
      exact Nat.zero_le _

theorem Severity.rank_max (a b : Severity) :
    (Severity.max a b).rank = Nat.max a.rank b.rank := by
  cases a <;> cases b <;> rfl

/-- C3: the severity classification is monotone in the per-count deltas,
both with and without the general family available, and two snapshots
with identical object-type counts produce all-zero deltas and severity
none. -/
theorem leak_severity_monotone :
    (∀ (d e : HttpDiffs) (g k : GeneralDiffs), HttpDiffs.le d e → GeneralDiffs.le g k →
        (leakSeverity d (Option.some g)).rank ≤ (leakSeverity e (Option.some k)).rank) ∧
    (∀ d e : HttpDiffs, HttpDiffs.le d e →
        (leakSeverity d Option.none).rank ≤ (leakSeverity e Option.none).rank) ∧
    (∀ b : Counts, httpDelta b b = ⟨0, 0, 0⟩ ∧ genDelta b b = ⟨0, 0, 0⟩ ∧
        leakSeverity (httpDelta b b) (Option.some (genDelta b b)) = Severity.none) := by
  refine ⟨?_, ?_, ?_⟩
  · intro d e g k hd hg
    rw [leakSeverity_eq_max, leakSeverity_eq_max, Severity.rank_max, Severity.rank_max]
    exact max_le_max (httpFamilySeverity_rank_mono hd) (genFamilySeverity_rank_mono hg)
  · intro d e hd
    rw [leakSeverity_none_eq_http, leakSeverity_none_eq_http]
    exact httpFamilySeverity_rank_mono hd
  · intro b
    have h1 : httpDelta b b = ⟨0, 0, 0⟩ := by
      simp [httpDelta]
    have h2 : genDelta b b = ⟨0, 0, 0⟩ := by
      simp [genDelta]
    exact ⟨h1, h2, by rw [h1, h2]; rfl⟩

/-- C3 (witness): instantiation of the monotonicity statement at the
all-zero delta vector against a vector with Headers delta 600. -/
theorem leak_severity_monotone_witness :
    (leakSeverity ⟨0, 0, 0⟩ (Option.some ⟨0, 0, 0⟩)).rank
      ≤ (leakSeverity ⟨600, 0, 0⟩ (Option.some ⟨0, 0, 0⟩)).rank :=
  leak_severity_monotone.1 ⟨0, 0, 0⟩ ⟨600, 0, 0⟩ ⟨0, 0, 0⟩ ⟨0, 0, 0⟩
    ⟨by decide, by decide, by decide⟩ ⟨by decide, by decide, by decide⟩

/-- Division at bc scale 2, as the script uses for the leak rates: the
quotient is computed to two decimal digits, truncating toward zero. -/
def bcDivScale2 (n m : Int) : ℚ :=
  ((Int.tdiv (n * 100) m : Int) : ℚ) / 100

/-- C4: on the documented scenario (baseline Headers 54 and
NodeHTTPResponse 50, post-load Headers 1338 and NodeHTTPResponse 1334
after 1000 requests) the driver computes deltas +1284 and +1284, the
critical HTTP condition fires because a diff exceeds 500, the severity is
critical, the printed leak rate is the scale-2 truncation 1.28 of the
exact per-request rate 1284 / 1000 = 1.284, and the printed rate is
within 1/100 of the exact one. -/
theorem leak_scenario_1000_requests :
    httpDelta ⟨54, 50, 0, 0, 0, 0⟩ ⟨1338, 1334, 0, 0, 0, 0⟩ = ⟨1284, 1284, 0⟩ ∧
    httpCriticalCond ⟨1284, 1284, 0⟩ = true ∧
    leakSeverity (httpDelta ⟨54, 50, 0, 0, 0, 0⟩ ⟨1338, 1334, 0, 0, 0, 0⟩)
        (Option.some (genDelta ⟨54, 50, 0, 0, 0, 0⟩ ⟨1338, 1334, 0, 0, 0, 0⟩))
      = Severity.critical ∧
    bcDivScale2 1284 1000 = 1.28 ∧
    (1284 : ℚ) / 1000 = 1.284 ∧
    |bcDivScale2 1284 1000 - (1284 : ℚ) / 1000| < 1 / 100 := by
  have hb : bcDivScale2 1284 1000 = 1.28 := by
    unfold bcDivScale2
    rw [show Int.tdiv (1284 * 100) 1000 = 128 from rfl]
    norm_num
  refine ⟨by decide, by decide, by decide, hb, by norm_num, ?_⟩
  rw [hb]
  rw [abs_sub_lt_iff]
  norm_num

/-- The fragment of JavaScript number semantics the /memory handler
needs: after Math.round the finite values are integers, and dividing
nonnegative byte counts can additionally produce NaN (0/0) or +Infinity
(positive/0). -/
inductive JSNum where
  | num : Int → JSNum
  | posInf
  | nan
deriving DecidableEq

/-- JSON serialization of such a value: JSON.stringify turns NaN and
Infinity into null, so only finite values survive as numbers. -/
def JSNum.toJSON : JSNum → Option Int
  | JSNum.num z => Option.some z
  | JSNum.posInf => Option.none
  | JSNum.nan => Option.none

/-- The strict greater-than comparison JavaScript applies to such a
value: NaN compares false, +Infinity compares true. -/
def jsGT (x : JSNum) (t : Int) : Bool :=
  match x with
  | JSNum.num z => decide (t < z)
  | JSNum.posInf => true
  | JSNum.nan => false

/-- Math.round((heapUsed / heapTotal) * 100) from the /memory handler.
With heapTotal = 0 JavaScript division yields NaN for heapUsed = 0 and
+Infinity otherwise, and multiplying by 100 and Math.round keep both;
otherwise the value is the exact rational quotient times 100, rounded
half-up (the rounding mode of Math.round). -/
def heapUtilization (heapUsed heapTotal : Nat) : JSNum :=
  if heapTotal = 0 then
    (if heapUsed = 0 then JSNum.nan else JSNum.posInf)
  else JSNum.num (round ((heapUsed : ℚ) / (heapTotal : ℚ) * 100))

/-- Math.round(bytes / 1024 / 1024): dividing twice by 1024 is dividing
by 1048576. -/
def toMB (bytes : Nat) : Int :=
  round ((bytes : ℚ) / 1048576)

/-- The process.memoryUsage() sample, in bytes. -/
structure MemUsage where
  rss : Nat
  heapUsed : Nat
  heapTotal : Nat
  external : Nat
  arrayBuffers : Nat

/-- The memoryUsageMB object of the handler: every field rounded to
megabytes. -/
structure UsageMB where
  rss : Int
  heapUsed : Int
  heapTotal : Int
  external : Int
  arrayBuffers : Int
deriving DecidableEq

def usageMB (u : MemUsage) : UsageMB :=
  ⟨toMB u.rss, toMB u.heapUsed, toMB u.heapTotal, toMB u.external, toMB u.arrayBuffers⟩

/-- The bun:jsc heapStats() sample.  objectTypeCounts is a JavaScript
object, embedded as its entry list in iteration order. -/
structure HeapStats where
  heapSize : Nat
  heapCapacity : Nat
  extraMemorySize : Nat
  objectCount : Nat
  protectedObjectCount : Nat
  objectTypeCounts : List (String × Nat)

/-- Property access objectTypeCounts[k]: the count when the key is
present. -/
def typeCount (l : List (String × Nat)) (k : String) : Option Nat :=
  (l.find? (fun p => p.1 == k)).map (fun p => p.2)

/-- Property access with the || 0 default the handler uses for the
httpObjects sub-object. -/
def typeCountD (l : List (String × Nat)) (k : String) : Nat :=
  (typeCount l k).getD 0

/-- The truthiness-guarded threshold test the handler uses for leak
indicators: counts.K && counts.K > t.  An absent key fails the guard, a
present count of 0 is falsy but also below every threshold used, so the
test is: present and above the threshold. -/
def exceedsOpt (o : Option Nat) (t : Nat) : Bool :=
  match o with
  | Option.some n => decide (t < n)
  | Option.none => false

def highHeapMsg : String :=
  "High heap utilization detected. Consider investigating potential memory leaks."

def highRssMsg : String :=
  "High RSS memory usage (>1GB). Monitor for continuous growth over time."

def highObjMsg : String :=
  "High object count detected. Check for object retention issues."

/-- The memoryTrend object of the handler. -/
structure Trend where
  heapUtilization : JSNum
  isHighMemoryUsage : Bool
  recommendations : List String
deriving DecidableEq

def memoryTrend (u : MemUsage) (hs : Option HeapStats) : Trend :=
  let hu := heapUtilization u.heapUsed u.heapTotal
  { heapUtilization := hu
    isHighMemoryUsage := decide (512 < (usageMB u).rss)
    recommendations :=
      (if jsGT hu 80 then [highHeapMsg] else []) ++
      (if decide (1024 < (usageMB u).rss) then [highRssMsg] else []) ++
      (if (match hs with
           | Option.some st => decide (100000 < st.objectCount)
           | Option.none => false) then [highObjMsg] else []) }

def headersMsg (n : Nat) : String :=
  "High Headers count (" ++ toString n ++ ") - potential HTTP object leak"

def responsesMsg (n : Nat) : String :=
  "High NodeHTTPResponse count (" ++ toString n ++ ") - potential HTTP object leak"

def argumentsMsg (n : Nat) : String :=
  "High Arguments count (" ++ toString n ++ ") - potential closure leak"

def promiseMsg : String := "High Promise count - check for unresolved promises"

def arrayMsg : String := "High Array count - check for array retention"

def functionMsg : String := "High Function count - check for closure leaks"

/-- The leakIndicators array built by the handler: one push per fixed
threshold test, in source order, nothing when heap stats are
unavailable. -/
def leakList (hs : Option HeapStats) : List String :=
  match hs with
  | Option.none => []
  | Option.some st =>
    let c := st.objectTypeCounts
    (if exceedsOpt (typeCount c "Headers") 100 then [headersMsg (typeCountD c "Headers")] else []) ++
    (if exceedsOpt (typeCount c "NodeHTTPResponse") 100 then [responsesMsg (typeCountD c "NodeHTTPResponse")] else []) ++
    (if exceedsOpt (typeCount c "Arguments") 1000 then [argumentsMsg (typeCountD c "Arguments")] else []) ++
    (if exceedsOpt (typeCount c "Promise") 10000 then [promiseMsg] else []) ++
    (if exceedsOpt (typeCount c "Array") 50000 then [arrayMsg] else []) ++
    (if exceedsOpt (typeCount c "Function") 20000 then [functionMsg] else [])

/-- Descending order on object-type entries: a comes before b when the
count of a is at least the count of b.  This is the total preorder the
comparator (b, a) => b.count - a.count sorts by. -/
def countGE (a b : String × Nat) : Prop := b.2 ≤ a.2

instance : DecidableRel countGE :=
  fun a b => inferInstanceAs (Decidable (b.2 ≤ a.2))

instance : IsTotal (String × Nat) countGE :=
  ⟨fun a b => le_total b.2 a.2⟩

instance : IsTrans (String × Nat) countGE :=
  ⟨fun _ _ _ h1 h2 => le_trans h2 h1⟩

/-- topObjectTypes of the handler: Object.entries(objectTypeCounts)
sorted descending by count with the stable Array.prototype.sort, then
slice(0, 10).  A stable sort under a total preorder is extensionally
unique, so it is embedded as stable insertion sort under countGE. -/
def topObjectTypes (l : List (String × Nat)) : List (String × Nat) :=
  (List.insertionSort countGE l).take 10

/-- The heap.analysis object of the handler. -/
structure HeapAnalysis where
  totalObjects : Nat
  protectedObjects : Nat
  topObjectTypes : List (String × Nat)
  headersCount : Nat
  responsesCount : Nat
  argumentsCount : Nat
  socketsCount : Nat

/-- The heap section of the response: raw statistics plus analysis. -/
structure HeapBlock where
  statistics : HeapStats
  analysis : HeapAnalysis

def heapBlock (hs : Option HeapStats) : Option HeapBlock :=
  match hs with
  | Option.none => Option.none
  | Option.some st =>
    Option.some
      { statistics := st
        analysis :=
          { totalObjects := st.objectCount
            protectedObjects := st.protectedObjectCount
            topObjectTypes := topObjectTypes st.objectTypeCounts
            headersCount := typeCountD st.objectTypeCounts "Headers"
            responsesCount := typeCountD st.objectTypeCounts "NodeHTTPResponse"
            argumentsCount := typeCountD st.objectTypeCounts "Arguments"
            socketsCount := typeCountD st.objectTypeCounts "NodeHTTPServerSocket" } }

def snapshotSuccessMsg : String :=
  "Heap snapshot created. Load this file in Chrome DevTools Memory tab for analysis."

def snapshotFailMsg : String := "Failed to create heap snapshot"

/-- The snapshot sub-object of the response: created flag, filename on
success, the message field, and the error field on failure. -/
structure SnapshotRec where
  created : Bool
  filename : Option String
  message : String
  errorMsg : Option String
deriving DecidableEq

/-- Environment sampled by one /memory request: whether
process.memoryUsage() throws, its value otherwise, the optional bun:jsc
heap statistics, the snapshot query flag, the filename the handler would
generate, and the outcome of writeHeapSnapshot. -/
structure MemoryEnv where
  usageFail : Bool
  usage : MemUsage
  heapStats : Option HeapStats
  snapshotRequested : Bool
  snapshotName : String
  snapshotWrite : Except String Unit

/-- The snapshot section of the response: absent unless requested;
success reports created true with filename and the success message;
a caught write failure reports created false, the fixed error text and
the message of the thrown error. -/
def snapshotInfo (env : MemoryEnv) : Option SnapshotRec :=
  if env.snapshotRequested then
    match env.snapshotWrite with
    | Except.ok _ =>
      Option.some ⟨true, Option.some env.snapshotName, snapshotSuccessMsg, Option.none⟩
    | Except.error e =>
      Option.some ⟨false, Option.none, e, Option.some snapshotFailMsg⟩
  else Option.none

/-- The JSON body of a successful /memory response. -/
structure MemoryBody where
  usage : UsageMB
  trend : Trend
  leakIndicators : Option (List String)
  heap : Option HeapBlock
  snapshot : Option SnapshotRec

def memoryBody (env : MemoryEnv) : MemoryBody :=
  { usage := usageMB env.usage
    trend := memoryTrend env.usage env.heapStats
    leakIndicators :=
      (let l := leakList env.heapStats
       if 0 < l.length then Option.some l else Option.none)
    heap := heapBlock env.heapStats
    snapshot := snapshotInfo env }

/-- A request to the server: GET /health, or GET /memory together with
the environment that request samples. -/
inductive Request where
  | health
  | memory (env : MemoryEnv)

inductive RespBody where
  | healthOk
  | memoryOk (b : MemoryBody)
  | failure (msg : String)

structure Response where
  status : Nat
  body : RespBody

/-- The only cross-request state the process accumulates: the heap
snapshot files written so far. -/
def ServerState : Type := List String

def writtenFiles (env : MemoryEnv) (s : ServerState) : ServerState :=
  if env.snapshotRequested then
    match env.snapshotWrite with
    | Except.ok _ => List.append s [env.snapshotName]
    | Except.error _ => s
  else s

/-- One request step of the server of src/index.ts: /health answers the
constant 200 body; /memory answers 500 with the structured error body
when process.memoryUsage() throws, and otherwise 200 with the assembled
memory body. -/
def handle : Request → ServerState → Response × ServerState
  | Request.health, s => (⟨200, RespBody.healthOk⟩, s)
  | Request.memory env, s =>
    if env.usageFail then
      (⟨500, RespBody.failure "Failed to retrieve memory information"⟩, s)
    else
      (⟨200, RespBody.memoryOk (memoryBody env)⟩, writtenFiles env s)

/-- Server state after a sequence of requests. -/
def runState : List Request → ServerState → ServerState
  | [], s => s
  | r :: rs, s => runState rs (handle r s).2

theorem filter_orderedInsert_pos (c : Nat) (x : String × Nat) (hx : x.2 = c)
    (l : List (String × Nat)) :
    (List.orderedInsert countGE x l).filter (fun q => q.2 == c)
      = x :: l.filter (fun q => q.2 == c) := by
  induction l with
  | nil => simp [hx]
  | cons y l ih =>
    by_cases h : countGE x y
    · simp [h, hx]
    · have hy : ¬ y.2 = c := by
        simp only [countGE, not_le] at h
        omega
      simp [h, hy, ih]

theorem filter_orderedInsert_neg (c : Nat) (x : String × Nat) (hx : ¬ x.2 = c)
    (l : List (String × Nat)) :
    (List.orderedInsert countGE x l).filter (fun q => q.2 == c)
      = l.filter (fun q => q.2 == c) := by
  induction l with
  | nil => simp [hx]
  | cons y l ih =>
    by_cases h : countGE x y
    · simp [h, hx]
    · simp [h, List.filter_cons, ih]

/-- Helper: a stable sort keyed only on the counts leaves the subsequence
of entries with any one fixed count untouched. -/
theorem filter_insertionSort (c : Nat) (l : List (String × Nat)) :
    (List.insertionSort countGE l).filter (fun q => q.2 == c)
      = l.filter (fun q => q.2 == c) := by
  induction l with
  | nil => rfl
  | cons x l ih =>
    by_cases hx : x.2 = c
    · rw [List.insertionSort, filter_orderedInsert_pos c x hx, ih]
      simp [hx]
    · rw [List.insertionSort, filter_orderedInsert_neg c x hx, ih]
      simp [hx]

theorem take_length_append {α : Type} (a b : List α) :
    (a ++ b).take a.length = a := by
  induction a with
  | nil => rfl
  | cons x xs ih => simp [ih]

theorem filter_take_eq_take_filter {α : Type} (p : α → Bool) (l : List α) (n : Nat) :
    ∃ k, (l.take n).filter p = (l.filter p).take k := by
  have h : l.filter p = (l.take n).filter p ++ (l.drop n).filter p := by
    rw [← List.filter_append, List.take_append_drop]
  refine ⟨((l.take n).filter p).length, ?_⟩
  rw [h, take_length_append]

/-- C5: in every successful /memory response with heap statistics
available, heap.analysis.topObjectTypes is the sorted-descending
truncation of objectTypeCounts: it is sorted descending by count, has
length at most 10, and for every count value the entries carrying it are
an initial segment, in input (iteration) order, of the input entries
carrying it. -/
theorem top_object_types_sorted_stable (env : MemoryEnv) (st : HeapStats)
    (h : env.heapStats = Option.some st) :
    ((memoryBody env).heap.map (fun hb => hb.analysis.topObjectTypes))
        = Option.some (topObjectTypes st.objectTypeCounts) ∧
    List.Sorted countGE (topObjectTypes st.objectTypeCounts) ∧
    (topObjectTypes st.objectTypeCounts).length ≤ 10 ∧
    ∀ c : Nat, ∃ k : Nat,
      (topObjectTypes st.objectTypeCounts).filter (fun q => q.2 == c)
        = (st.objectTypeCounts.filter (fun q => q.2 == c)).take k := by
  refine ⟨?_, ?_, ?_, ?_⟩
  · simp [memoryBody, heapBlock, h]
  · exact List.Pairwise.sublist (List.take_sublist 10 _)
      (List.sorted_insertionSort countGE st.objectTypeCounts)
  · simp only [topObjectTypes, List.length_take]
    omega
  · intro c
    obtain ⟨k, hk⟩ :=
      filter_take_eq_take_filter (fun q => q.2 == c)
        (List.insertionSort countGE st.objectTypeCounts) 10
    refine ⟨k, ?_⟩
    rw [show topObjectTypes st.objectTypeCounts
          = (List.insertionSort countGE st.objectTypeCounts).take 10 from rfl,
        hk, filter_insertionSort]

/-- Concrete heap statistics used by witnesses. -/
def statsW : HeapStats :=
  { heapSize := 1000
    heapCapacity := 2000
    extraMemorySize := 0
    objectCount := 17
    protectedObjectCount := 1
    objectTypeCounts := [("Function", 5), ("Array", 7), ("Object", 5)] }

/-- Concrete /memory environment used by witnesses: heap stats present,
no snapshot requested. -/
def envW5 : MemoryEnv :=
  { usageFail := false
    usage := ⟨0, 0, 1, 0, 0⟩
    heapStats := Option.some statsW
    snapshotRequested := false
    snapshotName := "s"
    snapshotWrite := Except.ok () }

/-- C5 (witness): the length bound, instantiated at a concrete response. -/
theorem top_object_types_sorted_stable_witness :
    (topObjectTypes statsW.objectTypeCounts).length ≤ 10 :=
  (top_object_types_sorted_stable envW5 statsW rfl).2.2.1

theorem mem_singleton_ite {α : Type} (a b : α) (c : Prop) [Decidable c] :
    (a ∈ if c then [b] else []) ↔ (c ∧ a = b) := by
  by_cases h : c <;> simp [h]

/-- C6: on every successful /memory response whose heapTotal sample is
nonzero, the reported heapUtilization is round(heapUsed / heapTotal x
100), and the high-heap-utilization recommendation appears in
memory.trend.recommendations exactly when that rounded value exceeds
80. -/
theorem heap_utilization_and_recommendation (env : MemoryEnv)
    (h : env.usage.heapTotal ≠ 0) :
    (memoryBody env).trend.heapUtilization
        = JSNum.num (round ((env.usage.heapUsed : ℚ) / (env.usage.heapTotal : ℚ) * 100)) ∧
    (highHeapMsg ∈ (memoryBody env).trend.recommendations ↔
        80 < round ((env.usage.heapUsed : ℚ) / (env.usage.heapTotal : ℚ) * 100)) := by
  have h1 : heapUtilization env.usage.heapUsed env.usage.heapTotal
      = JSNum.num (round ((env.usage.heapUsed : ℚ) / (env.usage.heapTotal : ℚ) * 100)) := by
    unfold heapUtilization
    rw [if_neg h]
  have hne1 : highHeapMsg ≠ highRssMsg := by simp [highHeapMsg, highRssMsg]
  have hne2 : highHeapMsg ≠ highObjMsg := by simp [highHeapMsg, highObjMsg]
  constructor
  · show (memoryTrend env.usage env.heapStats).heapUtilization = _
    simp [memoryTrend, h1]
  · show highHeapMsg ∈ (memoryTrend env.usage env.heapStats).recommendations ↔ _
    simp only [memoryTrend, h1, jsGT, List.mem_append, mem_singleton_ite,
      decide_eq_true_eq, hne1, hne2, and_false, and_true, or_false]

/-- Concrete /memory environment for the C6 witness: one megabyte of
heap fully used, so the utilization rounds to 100. -/
def envW6 : MemoryEnv :=
  { usageFail := false
    usage := ⟨0, 1048576, 1048576, 0, 0⟩
    heapStats := Option.none
    snapshotRequested := false
    snapshotName := "s"
    snapshotWrite := Except.ok () }

/-- C6 (witness): instantiation at the concrete environment. -/
theorem heap_utilization_and_recommendation_witness :
    (memoryBody envW6).trend.heapUtilization
        = JSNum.num (round ((envW6.usage.heapUsed : ℚ) / (envW6.usage.heapTotal : ℚ) * 100)) ∧
    (highHeapMsg ∈ (memoryBody envW6).trend.recommendations ↔
        80 < round ((envW6.usage.heapUsed : ℚ) / (envW6.usage.heapTotal : ℚ) * 100)) :=
  heap_utilization_and_recommendation envW6 (by decide)

/-- The fixed threshold table of the leak-indicator checks, written from
the words of the spec, in source order. -/
def thresholdTable : List (String × Nat) :=
  [("Headers", 100), ("NodeHTTPResponse", 100), ("Arguments", 1000),
   ("Promise", 10000), ("Array", 50000), ("Function", 20000)]

/-- How many of the fixed thresholds are exceeded by the sampled
object-type counts; 0 when heap statistics are unavailable. -/
def exceededCount (hs : Option HeapStats) : Nat :=
  match hs with
  | Option.none => 0
  | Option.some st =>
    (thresholdTable.filter
      (fun p => exceedsOpt (typeCount st.objectTypeCounts p.1) p.2)).length

theorem leakList_length (hs : Option HeapStats) :
    (leakList hs).length = exceededCount hs := by
  cases hs with
  | none => rfl
  | some st =>
    unfold leakList exceededCount thresholdTable
    cases h1 : exceedsOpt (typeCount st.objectTypeCounts "Headers") 100 <;>
    cases h2 : exceedsOpt (typeCount st.objectTypeCounts "NodeHTTPResponse") 100 <;>
    cases h3 : exceedsOpt (typeCount st.objectTypeCounts "Arguments") 1000 <;>
    cases h4 : exceedsOpt (typeCount st.objectTypeCounts "Promise") 10000 <;>
    cases h5 : exceedsOpt (typeCount st.objectTypeCounts "Array") 50000 <;>
    cases h6 : exceedsOpt (typeCount st.objectTypeCounts "Function") 20000 <;>
      simp [h1, h2, h3, h4, h5, h6]

/-- C7: the leakIndicators field of every /memory body is null exactly
when no fixed threshold is exceeded (in particular whenever heap
statistics are unavailable), and otherwise lists exactly one entry per
exceeded threshold. -/
theorem leak_indicators_exact (env : MemoryEnv) :
    ((memoryBody env).leakIndicators = Option.none ↔
        exceededCount env.heapStats = 0) ∧
    (∀ l : List String, (memoryBody env).leakIndicators = Option.some l →
        l.length = exceededCount env.heapStats) ∧
    (env.heapStats = Option.none → (memoryBody env).leakIndicators = Option.none) := by
  have hlen := leakList_length env.heapStats
  have hbody : (memoryBody env).leakIndicators
      = (if 0 < (leakList env.heapStats).length
         then Option.some (leakList env.heapStats) else Option.none) := rfl
  refine ⟨?_, ?_, ?_⟩
  · rw [hbody]
    by_cases h : 0 < (leakList env.heapStats).length
    · rw [if_pos h]
      refine iff_of_false (by simp) (by omega)
    · rw [if_neg h]
      refine iff_of_true rfl (by omega)
  · intro l hl
    rw [hbody] at hl
    by_cases h : 0 < (leakList env.heapStats).length
    · rw [if_pos h] at hl
      obtain rfl : leakList env.heapStats = l := Option.some.inj hl
      exact hlen
    · rw [if_neg h] at hl
      exact absurd hl (by simp)
  · intro h
    rw [hbody]
    simp [h, leakList]

/-- Concrete heap statistics for the C7 witness: a Headers count above
its threshold and nothing else tracked. -/
def statsW7 : HeapStats :=
  { heapSize := 0
    heapCapacity := 0
    extraMemorySize := 0
    objectCount := 5
    protectedObjectCount := 0
    objectTypeCounts := [("Headers", 150)] }

def envW7 : MemoryEnv :=
  { usageFail := false
    usage := ⟨0, 0, 1, 0, 0⟩
    heapStats := Option.some statsW7
    snapshotRequested := false
    snapshotName := "s"
    snapshotWrite := Except.ok () }

/-- C7 (witness): at the concrete environment the single returned entry
matches the single exceeded threshold. -/
theorem leak_indicators_exact_witness :
    ([headersMsg 150] : List String).length = exceededCount envW7.heapStats :=
  (leak_indicators_exact envW7).2.1 [headersMsg 150] rfl

/-- C8: every /health request is answered with status 200 and the
constant ok body, whatever requests (in particular /memory requests) came
before, and two runs differing only in the earlier request list give the
identical /health response. -/
theorem health_independent_of_memory :
    (∀ (prior : List Request) (s0 : ServerState),
        (handle Request.health (runState prior s0)).1
          = ⟨200, RespBody.healthOk⟩) ∧
    (∀ (p1 p2 : List Request) (s0 : ServerState),
        (handle Request.health (runState p1 s0)).1
          = (handle Request.health (runState p2 s0)).1) :=
  ⟨fun _ _ => rfl, fun _ _ _ => rfl⟩

/-- C9: when the snapshot flag is set and writeHeapSnapshot throws, the
/memory request still succeeds with status 200, the body is the normal
memory body, and its snapshot section reports created false with the
fixed error text and the thrown message. -/
theorem snapshot_failure_caught (env : MemoryEnv) (s : ServerState) (e : String)
    (h1 : env.usageFail = false) (h2 : env.snapshotRequested = true)
    (h3 : env.snapshotWrite = Except.error e) :
    (handle (Request.memory env) s).1.status = 200 ∧
    (handle (Request.memory env) s).1.body = RespBody.memoryOk (memoryBody env) ∧
    (memoryBody env).snapshot
      = Option.some ⟨false, Option.none, e, Option.some snapshotFailMsg⟩ := by
  refine ⟨?_, ?_, ?_⟩
  · simp [handle, h1]
  · simp [handle, h1]
  · show snapshotInfo env = _
    simp [snapshotInfo, h2, h3]

def envW9 : MemoryEnv :=
  { usageFail := false
    usage := ⟨0, 0, 1, 0, 0⟩
    heapStats := Option.none
    snapshotRequested := true
    snapshotName := "snap"
    snapshotWrite := Except.error "disk full" }

/-- C9 (witness): instantiation at a concrete failing snapshot write. -/
theorem snapshot_failure_caught_witness :
    (handle (Request.memory envW9) []).1.status = 200 ∧
    (handle (Request.memory envW9) []).1.body = RespBody.memoryOk (memoryBody envW9) ∧
    (memoryBody envW9).snapshot
      = Option.some ⟨false, Option.none, "disk full", Option.some snapshotFailMsg⟩ :=
  snapshot_failure_caught envW9 [] "disk full" rfl rfl rfl

/-- C10 (amended): with a zero heapTotal sample the /memory handler still
responds 200; the computed heapUtilization is NaN when heapUsed is also
zero and +Infinity otherwise, and in both cases it serializes to null
rather than a number. -/
theorem heap_utilization_zero_total (env : MemoryEnv) (s : ServerState)
    (h1 : env.usageFail = false) (h2 : env.usage.heapTotal = 0) :
    (handle (Request.memory env) s).1.status = 200 ∧
    (memoryBody env).trend.heapUtilization
      = (if env.usage.heapUsed = 0 then JSNum.nan else JSNum.posInf) ∧
    JSNum.toJSON ((memoryBody env).trend.heapUtilization) = Option.none := by
  have hu : (memoryBody env).trend.heapUtilization
      = (if env.usage.heapUsed = 0 then JSNum.nan else JSNum.posInf) := by
    show (memoryTrend env.usage env.heapStats).heapUtilization = _
    simp [memoryTrend, heapUtilization, h2]
  refine ⟨by simp [handle, h1], hu, ?_⟩
  rw [hu]
  by_cases h : env.usage.heapUsed = 0
  · rw [if_pos h]
    rfl
  · rw [if_neg h]
    rfl

/-- Concrete /memory environment with heapTotal 0 and heapUsed one
megabyte. -/
def envW10 : MemoryEnv :=
  { usageFail := false
    usage := ⟨0, 1048576, 0, 0, 0⟩
    heapStats := Option.none
    snapshotRequested := false
    snapshotName := "s"
    snapshotWrite := Except.ok () }

/-- C10 (counterexample): with heapUsed positive and heapTotal zero the
computed heapUtilization is +Infinity, not NaN. -/
theorem heap_utilization_zero_total_cex :
    (memoryBody envW10).trend.heapUtilization = JSNum.posInf ∧
    JSNum.posInf ≠ JSNum.nan :=
  ⟨rfl, by decide⟩

/-- C10 (witness): instantiation of the amended statement at the
concrete environment. -/
theorem heap_utilization_zero_total_witness :
    (handle (Request.memory envW10) []).1.status = 200 ∧
    (memoryBody envW10).trend.heapUtilization
      = (if envW10.usage.heapUsed = 0 then JSNum.nan else JSNum.posInf) ∧
    JSNum.toJSON ((memoryBody envW10).trend.heapUtilization) = Option.none :=
  heap_utilization_zero_total envW10 [] rfl rfl

end BunRepro
